import Mathlib

set_option maxRecDepth 10000

/-!
Shallow embedding of the OpenSquawk MSFS bridge
(src/wasm/opensquawk_bridge/src/Bridge.h, Bridge.cpp, exports.cpp).

Modelling conventions:
* C++ `double` values are carried as exact rationals (`ℚ`); the bridge never
  performs arithmetic on them, it only copies them and renders them with a
  fixed `printf` precision, which is modelled by `fmtFixed` (round to nearest,
  ties to even — the default FP rounding used by `snprintf`).
* `uint64_t` millisecond clocks are `Nat`; the wrapping 64-bit subtraction
  `now - last` in `EnsureConnected` is modelled exactly by `sub64`.
* Calls into the SimConnect host are recorded in an explicit `HostCall` trace
  returned next to the new state; the success of `SimConnect_Open` and of
  `SimConnect_SetDataOnSimObject` is a Boolean parameter supplied by the
  environment.
* Inbound SimConnect events are the closed variant `RecvEvent`; the raw
  byte-overlay decode of `SIMCONNECT_RECV_SIMOBJECT_DATA` is modelled as the
  already-decoded 20-field tuple.
-/

namespace osb

/-- The fixed-shape 20-field telemetry record (struct TelemetrySnapshot /
struct TelemetryData in the source), field order as declared. -/
structure TelemetrySnapshot where
  latitude_deg : ℚ
  longitude_deg : ℚ
  altitude_ft_true : ℚ
  altitude_ft_indicated : ℚ
  ias_kt : ℚ
  tas_kt : ℚ
  ground_velocity_mps : ℚ
  turbine_n1_pct : ℚ
  on_ground : ℚ
  engine_combustion : ℚ
  transponder_code : ℚ
  adf_active_freq_khz : ℚ
  adf_standby_freq_khz : ℚ
  vertical_speed_fpm : ℚ
  pitch_deg : ℚ
  turbine_n1_pct_2 : ℚ
  gear_handle : ℚ
  flaps_index : ℚ
  parking_brake : ℚ
  autopilot_master : ℚ
  deriving DecidableEq

/-- All members default to 0.0 in the C++ struct. -/
def zeroSnapshot : TelemetrySnapshot :=
  ⟨0, 0, 0, 0, 0, 0, 0, 0, 0, 0, 0, 0, 0, 0, 0, 0, 0, 0, 0, 0⟩

/-- The mutable members of class Bridge. `simconnect` models whether the
SimConnect handle is non-null. -/
structure Bridge where
  simconnect : Bool
  connected : Bool
  snapshot_valid : Bool
  snapshot_ts_ms : Nat
  last_connect_attempt_ms : Nat
  snapshot : TelemetrySnapshot
  snapshot_json : String
  deriving DecidableEq

/-- The member initializers of class Bridge: null handle, disconnected, no
snapshot, zero timestamps, empty string. -/
def initialBridge : Bridge :=
  { simconnect := false
    connected := false
    snapshot_valid := false
    snapshot_ts_ms := 0
    last_connect_attempt_ms := 0
    snapshot := zeroSnapshot
    snapshot_json := "" }

/-- constexpr DWORD kRequestTelemetry = 1. -/
def kRequestTelemetry : Nat := 1
/-- constexpr DWORD kDefTelemetry = 1. -/
def kDefTelemetry : Nat := 1
/-- constexpr DWORD kDefTransponder = 10. -/
def kDefTransponder : Nat := 10
/-- constexpr DWORD kDefAdfActive = 11. -/
def kDefAdfActive : Nat := 11
/-- constexpr DWORD kDefAdfStandby = 12. -/
def kDefAdfStandby : Nat := 12
/-- constexpr DWORD kDefGearHandle = 13. -/
def kDefGearHandle : Nat := 13
/-- constexpr DWORD kDefFlapsIndex = 14. -/
def kDefFlapsIndex : Nat := 14
/-- constexpr DWORD kDefParkingBrake = 15. -/
def kDefParkingBrake : Nat := 15
/-- constexpr DWORD kDefAutopilot = 16. -/
def kDefAutopilot : Nat := 16

/-- A value handed to SimConnect_SetDataOnSimObject: either the uint32
transponder code or an 8-byte double. -/
inductive WriteValue where
  | u32 (v : Nat)
  | f64 (v : ℚ)
  deriving DecidableEq

/-- One outbound call into the SimConnect host. -/
inductive HostCall where
  | openConn
  | addToDataDefinition (defId : Nat) (datumName unitsName : String)
  | requestData (requestId defId : Nat)
  | setData (defId : Nat) (value : WriteValue)
  | closeConn
  deriving DecidableEq

/-- One decoded inbound SimConnect event (SIMCONNECT_RECV discriminants
OPEN, QUIT, SIMOBJECT_DATA, anything else). -/
inductive RecvEvent where
  | openEvt
  | quitEvt
  | simObjectData (requestId : Nat) (payload : TelemetrySnapshot)
  | unknown
  deriving DecidableEq

/-- Wrapping uint64 subtraction, as computed by `now - last` on uint64_t. -/
def sub64 (a b : Nat) : Nat := (a + 2 ^ 64 - b % 2 ^ 64) % 2 ^ 64

/-- The 20 AddToDataDefinition calls for the bulk-read definition
kDefTelemetry, in source order. -/
def telemetryDefCalls : List HostCall :=
  [ .addToDataDefinition kDefTelemetry "PLANE LATITUDE" "degrees"
  , .addToDataDefinition kDefTelemetry "PLANE LONGITUDE" "degrees"
  , .addToDataDefinition kDefTelemetry "PLANE ALTITUDE" "feet"
  , .addToDataDefinition kDefTelemetry "INDICATED ALTITUDE" "feet"
  , .addToDataDefinition kDefTelemetry "AIRSPEED INDICATED" "knots"
  , .addToDataDefinition kDefTelemetry "AIRSPEED TRUE" "knots"
  , .addToDataDefinition kDefTelemetry "GROUND VELOCITY" "meters per second"
  , .addToDataDefinition kDefTelemetry "TURB ENG N1:1" "percent"
  , .addToDataDefinition kDefTelemetry "SIM ON GROUND" "bool"
  , .addToDataDefinition kDefTelemetry "ENG COMBUSTION:1" "bool"
  , .addToDataDefinition kDefTelemetry "TRANSPONDER CODE:1" "bco16"
  , .addToDataDefinition kDefTelemetry "ADF ACTIVE FREQUENCY:1" "kilohertz"
  , .addToDataDefinition kDefTelemetry "ADF STANDBY FREQUENCY:1" "kilohertz"
  , .addToDataDefinition kDefTelemetry "VERTICAL SPEED" "feet per minute"
  , .addToDataDefinition kDefTelemetry "PLANE PITCH DEGREES" "degrees"
  , .addToDataDefinition kDefTelemetry "TURB ENG N1:2" "percent"
  , .addToDataDefinition kDefTelemetry "GEAR HANDLE POSITION" "bool"
  , .addToDataDefinition kDefTelemetry "FLAPS HANDLE INDEX" "number"
  , .addToDataDefinition kDefTelemetry "BRAKE PARKING POSITION" "bool"
  , .addToDataDefinition kDefTelemetry "AUTOPILOT MASTER" "bool" ]

/-- The 7 AddToDataDefinition calls for the single-field write definitions,
in source order. -/
def writeDefCalls : List HostCall :=
  [ .addToDataDefinition kDefTransponder "TRANSPONDER CODE:1" "bco16"
  , .addToDataDefinition kDefAdfActive "ADF ACTIVE FREQUENCY:1" "kilohertz"
  , .addToDataDefinition kDefAdfStandby "ADF STANDBY FREQUENCY:1" "kilohertz"
  , .addToDataDefinition kDefGearHandle "GEAR HANDLE POSITION" "bool"
  , .addToDataDefinition kDefFlapsIndex "FLAPS HANDLE INDEX" "number"
  , .addToDataDefinition kDefParkingBrake "BRAKE PARKING POSITION" "bool"
  , .addToDataDefinition kDefAutopilot "AUTOPILOT MASTER" "bool" ]

/-- Bridge::RequestTelemetry, as the host call it issues. -/
def RequestTelemetryCalls : List HostCall :=
  [ .requestData kRequestTelemetry kDefTelemetry ]

/-- The full outbound call sequence of a successful connect: open, the 27
field definitions, and the periodic telemetry subscription. -/
def ConnectCalls : List HostCall :=
  [HostCall.openConn] ++ telemetryDefCalls ++ writeDefCalls ++ RequestTelemetryCalls

/-- Bridge::EnsureConnected. `now` is NowMs(); `openSuccess` is whether
SimConnect_Open SUCCEEDED. Returns (return value, new state, host calls). -/
def EnsureConnected (now : Nat) (openSuccess : Bool) (s : Bridge) :
    Bool × Bridge × List HostCall :=
  if s.connected then (true, s, [])
  else if sub64 now s.last_connect_attempt_ms < 2000 then (false, s, [])
  else
    let s1 := { s with last_connect_attempt_ms := now }
    if openSuccess then
      (true, { s1 with simconnect := true, connected := true }, ConnectCalls)
    else
      (false, s1, [HostCall.openConn])

/-- Bridge::Close: close the handle if non-null, null it, drop connected and
snapshot_valid. Returns (new state, host calls). -/
def Close (s : Bridge) : Bridge × List HostCall :=
  ( { s with simconnect := false, connected := false, snapshot_valid := false }
  , if s.simconnect then [HostCall.closeConn] else [] )

/-- Round the fraction n / d (d > 0) to the nearest natural number, ties to
even — the rounding applied by snprintf "%.*f" under the default
FE_TONEAREST mode. -/
def roundHalfEvenFrac (n d : Nat) : Nat :=
  let i := n / d
  let r := n % d
  if 2 * r < d then i
  else if d < 2 * r then i + 1
  else if i % 2 = 0 then i else i + 1

/-- Left-pad a digit string with zeros to width `p`. -/
def padZeros (p : Nat) (s : String) : String :=
  String.mk (List.replicate (p - s.length) '0') ++ s

/-- snprintf "%.pf" applied to the exact value `q`: sign, integer digits, and
exactly `p` fraction digits (no decimal point when p = 0). The magnitude
|q| * 10 ^ p is the exact fraction (q.num.natAbs * 10 ^ p) / q.den, rounded
half-to-even. A negative value rounded to zero keeps its sign, as printf
does. -/
def fmtFixed (p : Nat) (q : ℚ) : String :=
  let sign := if q.num < 0 then "-" else ""
  let m := roundHalfEvenFrac (q.num.natAbs * 10 ^ p) q.den
  let intPart := toString (m / 10 ^ p)
  if p = 0 then sign ++ intPart
  else sign ++ intPart ++ "." ++ padZeros p (toString (m % 10 ^ p))

/-- Bridge::BuildSnapshotJson, rendering a telemetry record with the format
string of the source: fixed key order, per-field precision. -/
def BuildSnapshotJson (t : TelemetrySnapshot) : String :=
  "\x7b\"latitude\":" ++ fmtFixed 8 t.latitude_deg ++
  ",\"longitude\":" ++ fmtFixed 8 t.longitude_deg ++
  ",\"altitude_ft_true\":" ++ fmtFixed 2 t.altitude_ft_true ++
  ",\"altitude_ft_indicated\":" ++ fmtFixed 2 t.altitude_ft_indicated ++
  ",\"ias_kt\":" ++ fmtFixed 2 t.ias_kt ++
  ",\"tas_kt\":" ++ fmtFixed 2 t.tas_kt ++
  ",\"ground_velocity_mps\":" ++ fmtFixed 3 t.ground_velocity_mps ++
  ",\"turbine_n1_pct\":" ++ fmtFixed 2 t.turbine_n1_pct ++
  ",\"on_ground\":" ++ fmtFixed 0 t.on_ground ++
  ",\"engine_combustion\":" ++ fmtFixed 0 t.engine_combustion ++
  ",\"transponder_code\":" ++ fmtFixed 0 t.transponder_code ++
  ",\"adf_active_freq_khz\":" ++ fmtFixed 3 t.adf_active_freq_khz ++
  ",\"adf_standby_freq_khz\":" ++ fmtFixed 3 t.adf_standby_freq_khz ++
  ",\"vertical_speed_fpm\":" ++ fmtFixed 1 t.vertical_speed_fpm ++
  ",\"pitch_deg\":" ++ fmtFixed 2 t.pitch_deg ++
  ",\"turbine_n1_pct_2\":" ++ fmtFixed 2 t.turbine_n1_pct_2 ++
  ",\"gear_handle\":" ++ fmtFixed 0 t.gear_handle ++
  ",\"flaps_index\":" ++ fmtFixed 0 t.flaps_index ++
  ",\"parking_brake\":" ++ fmtFixed 0 t.parking_brake ++
  ",\"autopilot_master\":" ++ fmtFixed 0 t.autopilot_master ++
  "\x7d"

/-- Bridge::HandleDispatch on one decoded event. `now` is NowMs() at the
moment the data event is stored. Returns (new state, host calls). -/
def HandleDispatch (now : Nat) (ev : RecvEvent) (s : Bridge) :
    Bridge × List HostCall :=
  match ev with
  | .openEvt => (s, [])
  | .quitEvt => Close s
  | .simObjectData requestId payload =>
      if requestId = kRequestTelemetry then
        let s1 := { s with
          snapshot := payload
          snapshot_valid := true
          snapshot_ts_ms := now }
        ({ s1 with snapshot_json := BuildSnapshotJson s1.snapshot }, [])
      else (s, [])
  | .unknown => (s, [])

/-- SimConnect_CallDispatch: drain the events queued by the host through
HandleDispatch, in order. -/
def PumpEvents (now : Nat) : Bridge → List RecvEvent → Bridge × List HostCall
  | s, [] => (s, [])
  | s, ev :: rest =>
      let r1 := HandleDispatch now ev s
      let r2 := PumpEvents now r1.1 rest
      (r2.1, r1.2 ++ r2.2)

/-- Bridge::Tick: EnsureConnected, then pump events only if connected.
`events` is what the host has queued for this tick. -/
def Tick (now : Nat) (openSuccess : Bool) (events : List RecvEvent)
    (s : Bridge) : Bridge × List HostCall :=
  let r := EnsureConnected now openSuccess s
  if r.2.1.connected then
    let p := PumpEvents now r.2.1 events
    (p.1, r.2.2 ++ p.2)
  else (r.2.1, r.2.2)

/-- Bridge::SnapshotAgeMs. -/
def SnapshotAgeMs (now : Nat) (s : Bridge) : Nat :=
  if !s.snapshot_valid then 0
  else if s.snapshot_ts_ms ≤ now then sub64 now s.snapshot_ts_ms else 0

/-- Bridge::GetSnapshotJson: when no snapshot is valid, assigns and returns
the empty object string; otherwise returns the cached string. Returns
(returned string, new state). -/
def GetSnapshotJson (s : Bridge) : String × Bridge :=
  if !s.snapshot_valid then ("\x7b\x7d", { s with snapshot_json := "\x7b\x7d" })
  else (s.snapshot_json, s)

/-- Bridge::SetTransponderCode: gated on connected_, sends the int cast to
uint32_t on kDefTransponder. `ack` is whether SetDataOnSimObject SUCCEEDED. -/
def SetTransponderCode (ack : Bool) (code : ℤ) (s : Bridge) :
    Bool × Bridge × List HostCall :=
  if !s.connected then (false, s, [])
  else (ack, s, [HostCall.setData kDefTransponder (.u32 (code % 2 ^ 32).toNat)])

/-- Bridge::SetAdfActiveKHz: sends the double unchanged on kDefAdfActive. -/
def SetAdfActiveKHz (ack : Bool) (value_khz : ℚ) (s : Bridge) :
    Bool × Bridge × List HostCall :=
  if !s.connected then (false, s, [])
  else (ack, s, [HostCall.setData kDefAdfActive (.f64 value_khz)])

/-- Bridge::SetAdfStandbyKHz: sends the double unchanged on kDefAdfStandby. -/
def SetAdfStandbyKHz (ack : Bool) (value_khz : ℚ) (s : Bridge) :
    Bool × Bridge × List HostCall :=
  if !s.connected then (false, s, [])
  else (ack, s, [HostCall.setData kDefAdfStandby (.f64 value_khz)])

/-- Bridge::SetGearHandle: sends 1.0 / 0.0 on kDefGearHandle. -/
def SetGearHandle (ack : Bool) (flag : Bool) (s : Bridge) :
    Bool × Bridge × List HostCall :=
  if !s.connected then (false, s, [])
  else (ack, s, [HostCall.setData kDefGearHandle (.f64 (if flag then 1 else 0))])

/-- Bridge::SetFlapsIndex: sends the int cast to double on kDefFlapsIndex. -/
def SetFlapsIndex (ack : Bool) (index : ℤ) (s : Bridge) :
    Bool × Bridge × List HostCall :=
  if !s.connected then (false, s, [])
  else (ack, s, [HostCall.setData kDefFlapsIndex (.f64 (index : ℚ))])

/-- Bridge::SetParkingBrake: sends 1.0 / 0.0 on kDefParkingBrake. -/
def SetParkingBrake (ack : Bool) (flag : Bool) (s : Bridge) :
    Bool × Bridge × List HostCall :=
  if !s.connected then (false, s, [])
  else (ack, s, [HostCall.setData kDefParkingBrake (.f64 (if flag then 1 else 0))])

/-- Bridge::SetAutopilotMaster: sends 1.0 / 0.0 on kDefAutopilot. -/
def SetAutopilotMaster (ack : Bool) (flag : Bool) (s : Bridge) :
    Bool × Bridge × List HostCall :=
  if !s.connected then (false, s, [])
  else (ack, s, [HostCall.setData kDefAutopilot (.f64 (if flag then 1 else 0))])

/-- One externally visible operation on the singleton bridge (the exported
surface of exports.cpp, each parameterized by the environment inputs). -/
inductive Step : Bridge → Bridge → Prop where
  | tick (now : Nat) (b : Bool) (evs : List RecvEvent) (s : Bridge) :
      Step s (Tick now b evs s).1
  | ensure (now : Nat) (b : Bool) (s : Bridge) :
      Step s (EnsureConnected now b s).2.1
  | close (s : Bridge) : Step s (Close s).1
  | getJson (s : Bridge) : Step s (GetSnapshotJson s).2
  | setXpdr (ack : Bool) (code : ℤ) (s : Bridge) :
      Step s (SetTransponderCode ack code s).2.1
  | setAdfA (ack : Bool) (v : ℚ) (s : Bridge) :
      Step s (SetAdfActiveKHz ack v s).2.1
  | setAdfS (ack : Bool) (v : ℚ) (s : Bridge) :
      Step s (SetAdfStandbyKHz ack v s).2.1
  | setGear (ack flag : Bool) (s : Bridge) :
      Step s (SetGearHandle ack flag s).2.1
  | setFlaps (ack : Bool) (i : ℤ) (s : Bridge) :
      Step s (SetFlapsIndex ack i s).2.1
  | setBrake (ack flag : Bool) (s : Bridge) :
      Step s (SetParkingBrake ack flag s).2.1
  | setAp (ack flag : Bool) (s : Bridge) :
      Step s (SetAutopilotMaster ack flag s).2.1

/-- States the singleton bridge can reach from its initializers through the
exported surface. -/
def Reachable (s : Bridge) : Prop :=
  Relation.ReflTransGen Step initialBridge s

/-- A concrete telemetry tuple used to exercise the model: each value is an
exact rational (the value a data event would deliver). -/
def samplePayload : TelemetrySnapshot :=
  ⟨⟨95, 2, by decide, by decide⟩, ⟨-33, 4, by decide, by decide⟩,
   ⟨1234567, 1000, by decide, by decide⟩, 1200, ⟨191, 2, by decide, by decide⟩,
   ⟨405, 4, by decide, by decide⟩, ⟨409, 8, by decide, by decide⟩,
   ⟨171, 2, by decide, by decide⟩, 0, 1, 4608,
   ⟨751, 2, by decide, by decide⟩, ⟨1641, 4, by decide, by decide⟩,
   ⟨-2502, 5, by decide, by decide⟩, ⟨5, 2, by decide, by decide⟩,
   ⟨343, 4, by decide, by decide⟩, 1, 2, 0, 1⟩

/-- The state after one tick at t = 5000 ms that connects successfully and
receives one matching data event. -/
def sampleBridge : Bridge :=
  (Tick 5000 true [RecvEvent.simObjectData 1 samplePayload] initialBridge).1

theorem sampleBridge_reachable : Reachable sampleBridge :=
  Relation.ReflTransGen.single
    (Step.tick 5000 true [RecvEvent.simObjectData 1 samplePayload] initialBridge)

theorem EnsureConnected_of_connected (now : Nat) (b : Bool) (s : Bridge)
    (h : s.connected = true) : EnsureConnected now b s = (true, s, []) := by
  simp [EnsureConnected, h]

theorem EnsureConnected_of_cooldown (now : Nat) (b : Bool) (s : Bridge)
    (h1 : s.connected = false)
    (h2 : sub64 now s.last_connect_attempt_ms < 2000) :
    EnsureConnected now b s = (false, s, []) := by
  simp [EnsureConnected, h1, h2]

theorem EnsureConnected_open_ok (now : Nat) (s : Bridge)
    (h1 : s.connected = false)
    (h2 : ¬ sub64 now s.last_connect_attempt_ms < 2000) :
    EnsureConnected now true s =
      (true, { s with last_connect_attempt_ms := now, simconnect := true,
                      connected := true }, ConnectCalls) := by
  simp [EnsureConnected, h1, h2]

theorem EnsureConnected_open_fail (now : Nat) (s : Bridge)
    (h1 : s.connected = false)
    (h2 : ¬ sub64 now s.last_connect_attempt_ms < 2000) :
    EnsureConnected now false s =
      (false, { s with last_connect_attempt_ms := now }, [HostCall.openConn]) := by
  simp [EnsureConnected, h1, h2]

/-- EnsureConnected never touches the telemetry cache, the valid flag, the
timestamp, or the serialized snapshot. -/
theorem EnsureConnected_cache (now : Nat) (b : Bool) (s : Bridge) :
    (EnsureConnected now b s).2.1.snapshot = s.snapshot ∧
    (EnsureConnected now b s).2.1.snapshot_valid = s.snapshot_valid ∧
    (EnsureConnected now b s).2.1.snapshot_ts_ms = s.snapshot_ts_ms ∧
    (EnsureConnected now b s).2.1.snapshot_json = s.snapshot_json := by
  unfold EnsureConnected
  split_ifs <;> simp

/-- The cached serialized string always renders the cached payload while the
snapshot is valid. -/
def JsonInv (s : Bridge) : Prop :=
  s.snapshot_valid = true → s.snapshot_json = BuildSnapshotJson s.snapshot

theorem JsonInv_initial : JsonInv initialBridge := by
  simp [JsonInv, initialBridge]

theorem JsonInv_Close (s : Bridge) : JsonInv (Close s).1 := by
  simp [JsonInv, Close]

theorem JsonInv_HandleDispatch (now : Nat) (ev : RecvEvent) (s : Bridge)
    (h : JsonInv s) : JsonInv (HandleDispatch now ev s).1 := by
  cases ev with
  | openEvt => exact h
  | quitEvt => exact JsonInv_Close s
  | simObjectData rid p =>
      by_cases hr : rid = kRequestTelemetry
      · simp [JsonInv, HandleDispatch, hr]
      · simpa [JsonInv, HandleDispatch, hr] using h
  | unknown => exact h

theorem JsonInv_PumpEvents (now : Nat) (evs : List RecvEvent) :
    ∀ s : Bridge, JsonInv s → JsonInv (PumpEvents now s evs).1 := by
  induction evs with
  | nil => intro s h; exact h
  | cons ev rest ih =>
      intro s h
      exact ih _ (JsonInv_HandleDispatch now ev s h)

theorem JsonInv_EnsureConnected (now : Nat) (b : Bool) (s : Bridge)
    (h : JsonInv s) : JsonInv (EnsureConnected now b s).2.1 := by
  have hf := EnsureConnected_cache now b s
  intro hv
  rw [hf.2.2.2, hf.1]
  exact h (hf.2.1 ▸ hv)

theorem JsonInv_Tick (now : Nat) (b : Bool) (evs : List RecvEvent)
    (s : Bridge) (h : JsonInv s) : JsonInv (Tick now b evs s).1 := by
  have h1 := JsonInv_EnsureConnected now b s h
  unfold Tick
  by_cases hc : (EnsureConnected now b s).2.1.connected
  · simpa [hc] using JsonInv_PumpEvents now evs _ h1
  · simpa [hc] using h1

/-- Every setter leaves the bridge state unchanged, whether gated out or
issuing a write. -/
theorem setters_state (ack : Bool) (code index : ℤ) (va vs : ℚ)
    (g pk ap : Bool) (s : Bridge) :
    (SetTransponderCode ack code s).2.1 = s ∧
    (SetAdfActiveKHz ack va s).2.1 = s ∧
    (SetAdfStandbyKHz ack vs s).2.1 = s ∧
    (SetGearHandle ack g s).2.1 = s ∧
    (SetFlapsIndex ack index s).2.1 = s ∧
    (SetParkingBrake ack pk s).2.1 = s ∧
    (SetAutopilotMaster ack ap s).2.1 = s := by
  unfold SetTransponderCode SetAdfActiveKHz SetAdfStandbyKHz SetGearHandle
    SetFlapsIndex SetParkingBrake SetAutopilotMaster
  refine ⟨?_, ?_, ?_, ?_, ?_, ?_, ?_⟩ <;> split <;> rfl

theorem JsonInv_GetSnapshotJson (s : Bridge) (h : JsonInv s) :
    JsonInv (GetSnapshotJson s).2 := by
  by_cases hv : s.snapshot_valid
  · simpa [GetSnapshotJson, hv] using h
  · simp [JsonInv, GetSnapshotJson, hv]

theorem JsonInv_Step (s t : Bridge) (hst : Step s t) (h : JsonInv s) :
    JsonInv t := by
  cases hst with
  | tick now b evs s => exact JsonInv_Tick now b evs s h
  | ensure now b s => exact JsonInv_EnsureConnected now b s h
  | close s => exact JsonInv_Close s
  | getJson s => exact JsonInv_GetSnapshotJson s h
  | setXpdr ack code s =>
      rw [(setters_state ack code 0 0 0 true true true s).1]; exact h
  | setAdfA ack v s =>
      rw [(setters_state ack 0 0 v 0 true true true s).2.1]; exact h
  | setAdfS ack v s =>
      rw [(setters_state ack 0 0 0 v true true true s).2.2.1]; exact h
  | setGear ack flag s =>
      rw [(setters_state ack 0 0 0 0 flag true true s).2.2.2.1]; exact h
  | setFlaps ack i s =>
      rw [(setters_state ack 0 i 0 0 true true true s).2.2.2.2.1]; exact h
  | setBrake ack flag s =>
      rw [(setters_state ack 0 0 0 0 true flag true s).2.2.2.2.2.1]; exact h
  | setAp ack flag s =>
      rw [(setters_state ack 0 0 0 0 true true flag s).2.2.2.2.2.2]; exact h

theorem Reachable_JsonInv (s : Bridge) (h : Reachable s) : JsonInv s := by
  induction h with
  | refl => exact JsonInv_initial
  | tail _ hst ih => exact JsonInv_Step _ _ hst ih

theorem two_pow_64 : (2 : ℕ) ^ 64 = 18446744073709551616 := by norm_num

/-- A connected bridge state, used to exercise the connected paths. -/
def connBridge : Bridge := { initialBridge with connected := true }

/-- Claim C1: in every reachable state with a valid snapshot, GetSnapshotJson
returns the serialization of the cached 20-field snapshot in the exact key
order and per-field precision of BuildSnapshotJson; in every state with no
valid snapshot it returns exactly the two-character empty-object string. -/
theorem GetSnapshotJson_spec (s : Bridge) (h : Reachable s) :
    (s.snapshot_valid = true →
      (GetSnapshotJson s).1 = BuildSnapshotJson s.snapshot) ∧
    (s.snapshot_valid = false → (GetSnapshotJson s).1 = "\x7b\x7d") := by
  constructor
  · intro hv
    have hj := Reachable_JsonInv s h hv
    simp [GetSnapshotJson, hv, hj]
  · intro hv
    simp [GetSnapshotJson, hv]

theorem GetSnapshotJson_spec_witness :
    sampleBridge.snapshot_valid = true ∧
    (GetSnapshotJson sampleBridge).1 = BuildSnapshotJson sampleBridge.snapshot ∧
    BuildSnapshotJson sampleBridge.snapshot =
      "\x7b\"latitude\":47.50000000,\"longitude\":-8.25000000,\"altitude_ft_true\":1234.57,\"altitude_ft_indicated\":1200.00,\"ias_kt\":95.50,\"tas_kt\":101.25,\"ground_velocity_mps\":51.125,\"turbine_n1_pct\":85.50,\"on_ground\":0,\"engine_combustion\":1,\"transponder_code\":4608,\"adf_active_freq_khz\":375.500,\"adf_standby_freq_khz\":410.250,\"vertical_speed_fpm\":-500.4,\"pitch_deg\":2.50,\"turbine_n1_pct_2\":85.75,\"gear_handle\":1,\"flaps_index\":2,\"parking_brake\":0,\"autopilot_master\":1\x7d" ∧
    initialBridge.snapshot_valid = false ∧
    (GetSnapshotJson initialBridge).1 = "\x7b\x7d" :=
  ⟨by decide,
   (GetSnapshotJson_spec sampleBridge sampleBridge_reachable).1 (by decide),
   by decide,
   by decide,
   (GetSnapshotJson_spec initialBridge Relation.ReflTransGen.refl).2 (by decide)⟩

/-- Claim C2: while disconnected, an EnsureConnected call made less than
2000 ms after the last recorded connection attempt returns false, changes no
state, and issues no host call — in particular no open handshake. -/
theorem EnsureConnected_cooldown_spec (now : Nat) (b : Bool) (s : Bridge)
    (hconn : s.connected = false)
    (hle : s.last_connect_attempt_ms ≤ now)
    (hlt : now - s.last_connect_attempt_ms < 2000) :
    EnsureConnected now b s = (false, s, []) ∧
    HostCall.openConn ∉ (EnsureConnected now b s).2.2 := by
  have h2 : sub64 now s.last_connect_attempt_ms < 2000 := by
    unfold sub64
    rw [two_pow_64]
    omega
  have he := EnsureConnected_of_cooldown now b s hconn h2
  refine ⟨he, ?_⟩
  rw [he]
  simp

theorem EnsureConnected_cooldown_spec_witness :
    initialBridge.connected = false ∧
    initialBridge.last_connect_attempt_ms ≤ 500 ∧
    500 - initialBridge.last_connect_attempt_ms < 2000 ∧
    EnsureConnected 500 true initialBridge = (false, initialBridge, []) ∧
    HostCall.openConn ∉ (EnsureConnected 500 true initialBridge).2.2 := by
  have h := EnsureConnected_cooldown_spec 500 true initialBridge
    (by decide) (by decide) (by decide)
  exact ⟨by decide, by decide, by decide, h.1, h.2⟩

/-- Claim C3: a data event carrying the outstanding bulk-telemetry request id
overwrites all 20 payload fields, marks the snapshot valid, stamps the
current time, and rebuilds the serialized snapshot; a data event with any
other request id leaves the state unchanged. -/
theorem HandleDispatch_data_spec (now reqId : Nat) (p : TelemetrySnapshot)
    (s : Bridge) :
    (reqId = kRequestTelemetry →
      HandleDispatch now (.simObjectData reqId p) s =
        ({ s with snapshot := p, snapshot_valid := true, snapshot_ts_ms := now,
                  snapshot_json := BuildSnapshotJson p }, [])) ∧
    (reqId ≠ kRequestTelemetry →
      HandleDispatch now (.simObjectData reqId p) s = (s, [])) := by
  constructor <;> intro h <;> simp [HandleDispatch, h]

theorem HandleDispatch_data_spec_witness :
    HandleDispatch 7 (.simObjectData 1 samplePayload) initialBridge =
      ({ initialBridge with snapshot := samplePayload, snapshot_valid := true,
                            snapshot_ts_ms := 7,
                            snapshot_json := BuildSnapshotJson samplePayload },
       []) ∧
    HandleDispatch 7 (.simObjectData 2 samplePayload) initialBridge =
      (initialBridge, []) :=
  ⟨(HandleDispatch_data_spec 7 1 samplePayload initialBridge).1 rfl,
   (HandleDispatch_data_spec 7 2 samplePayload initialBridge).2 (by decide)⟩

/-- Claim C4: every setter invoked while disconnected returns false, issues
no outbound host call, and leaves the bridge state unchanged. -/
theorem setters_disconnected_spec (s : Bridge) (h : s.connected = false)
    (ack : Bool) (code index : ℤ) (va vs : ℚ) (g pk ap : Bool) :
    SetTransponderCode ack code s = (false, s, []) ∧
    SetAdfActiveKHz ack va s = (false, s, []) ∧
    SetAdfStandbyKHz ack vs s = (false, s, []) ∧
    SetGearHandle ack g s = (false, s, []) ∧
    SetFlapsIndex ack index s = (false, s, []) ∧
    SetParkingBrake ack pk s = (false, s, []) ∧
    SetAutopilotMaster ack ap s = (false, s, []) := by
  simp [SetTransponderCode, SetAdfActiveKHz, SetAdfStandbyKHz, SetGearHandle,
        SetFlapsIndex, SetParkingBrake, SetAutopilotMaster, h]

theorem setters_disconnected_spec_witness :
    initialBridge.connected = false ∧
    SetTransponderCode true 4608 initialBridge = (false, initialBridge, []) ∧
    SetAdfActiveKHz true 1 initialBridge = (false, initialBridge, []) ∧
    SetAdfStandbyKHz true 1 initialBridge = (false, initialBridge, []) ∧
    SetGearHandle true true initialBridge = (false, initialBridge, []) ∧
    SetFlapsIndex true 2 initialBridge = (false, initialBridge, []) ∧
    SetParkingBrake true false initialBridge = (false, initialBridge, []) ∧
    SetAutopilotMaster true true initialBridge = (false, initialBridge, []) := by
  have h := setters_disconnected_spec initialBridge (by decide)
    true 4608 2 1 1 true false true
  exact ⟨by decide, h.1, h.2.1, h.2.2.1, h.2.2.2.1, h.2.2.2.2.1,
         h.2.2.2.2.2.1, h.2.2.2.2.2.2⟩

/-- Claim C5: every setter invoked while connected issues exactly one
single-field write on its own write definition, with the value encoded as the
descriptor expects: the transponder code as its uint32 cast, the ADF
frequencies and flaps index as doubles, and each Boolean argument as exactly
the numeric value 1.0 (true) or 0.0 (false). -/
theorem setters_connected_spec (s : Bridge) (h : s.connected = true)
    (ack : Bool) (code index : ℤ) (va vs : ℚ) (g pk ap : Bool) :
    SetTransponderCode ack code s =
      (ack, s, [HostCall.setData kDefTransponder (.u32 (code % 2 ^ 32).toNat)]) ∧
    SetAdfActiveKHz ack va s =
      (ack, s, [HostCall.setData kDefAdfActive (.f64 va)]) ∧
    SetAdfStandbyKHz ack vs s =
      (ack, s, [HostCall.setData kDefAdfStandby (.f64 vs)]) ∧
    SetGearHandle ack g s =
      (ack, s, [HostCall.setData kDefGearHandle (.f64 (if g then 1 else 0))]) ∧
    SetFlapsIndex ack index s =
      (ack, s, [HostCall.setData kDefFlapsIndex (.f64 (index : ℚ))]) ∧
    SetParkingBrake ack pk s =
      (ack, s, [HostCall.setData kDefParkingBrake (.f64 (if pk then 1 else 0))]) ∧
    SetAutopilotMaster ack ap s =
      (ack, s, [HostCall.setData kDefAutopilot (.f64 (if ap then 1 else 0))]) := by
  simp [SetTransponderCode, SetAdfActiveKHz, SetAdfStandbyKHz, SetGearHandle,
        SetFlapsIndex, SetParkingBrake, SetAutopilotMaster, h]

theorem setters_connected_spec_witness :
    connBridge.connected = true ∧
    SetTransponderCode true 4608 connBridge =
      (true, connBridge, [HostCall.setData kDefTransponder (.u32 4608)]) ∧
    SetAdfActiveKHz true 1 connBridge =
      (true, connBridge, [HostCall.setData kDefAdfActive (.f64 1)]) ∧
    SetGearHandle true true connBridge =
      (true, connBridge, [HostCall.setData kDefGearHandle (.f64 1)]) ∧
    SetParkingBrake true false connBridge =
      (true, connBridge, [HostCall.setData kDefParkingBrake (.f64 0)]) ∧
    SetAutopilotMaster true true connBridge =
      (true, connBridge, [HostCall.setData kDefAutopilot (.f64 1)]) := by
  have h := setters_connected_spec connBridge rfl true 4608 2 1 1 true false true
  refine ⟨rfl, ?_, h.2.1, ?_, ?_, ?_⟩
  · simpa using h.1
  · simpa using h.2.2.2.1
  · simpa using h.2.2.2.2.2.1
  · simpa using h.2.2.2.2.2.2

/-- Claim C6: a quit event triggers Close, leaving the bridge disconnected
with the snapshot invalidated; a later tick at least 2000 ms after the last
connection attempt whose open succeeds reconnects and re-issues the full
registration sequence: open, the bulk-read definition, all seven single-field
write definitions, and the telemetry subscription. -/
theorem quit_reconnect_spec (s : Bridge) (tq now : Nat)
    (hle : s.last_connect_attempt_ms ≤ now)
    (hcool : 2000 ≤ now - s.last_connect_attempt_ms)
    (hwrap : now - s.last_connect_attempt_ms < 2 ^ 64) :
    HandleDispatch tq .quitEvt s = Close s ∧
    (HandleDispatch tq .quitEvt s).1.connected = false ∧
    (HandleDispatch tq .quitEvt s).1.snapshot_valid = false ∧
    (Tick now true [] (HandleDispatch tq .quitEvt s).1).1.connected = true ∧
    (Tick now true [] (HandleDispatch tq .quitEvt s).1).2 = ConnectCalls := by
  have hq : HandleDispatch tq .quitEvt s = Close s := rfl
  have h2 : ¬ sub64 now (Close s).1.last_connect_attempt_ms < 2000 := by
    show ¬ sub64 now s.last_connect_attempt_ms < 2000
    unfold sub64
    rw [two_pow_64]
    omega
  have he := EnsureConnected_open_ok now (Close s).1 (by simp [Close]) h2
  refine ⟨hq, by rw [hq]; simp [Close], by rw [hq]; simp [Close], ?_, ?_⟩
  · rw [hq]
    simp [Tick, he, PumpEvents]
  · rw [hq]
    simp [Tick, he, PumpEvents]

theorem quit_reconnect_spec_witness :
    sampleBridge.last_connect_attempt_ms ≤ 8000 ∧
    2000 ≤ 8000 - sampleBridge.last_connect_attempt_ms ∧
    HandleDispatch 6000 .quitEvt sampleBridge = Close sampleBridge ∧
    (HandleDispatch 6000 .quitEvt sampleBridge).1.connected = false ∧
    (HandleDispatch 6000 .quitEvt sampleBridge).1.snapshot_valid = false ∧
    (Tick 8000 true [] (HandleDispatch 6000 .quitEvt sampleBridge).1).1.connected
      = true ∧
    (Tick 8000 true [] (HandleDispatch 6000 .quitEvt sampleBridge).1).2
      = ConnectCalls := by
  have h := quit_reconnect_spec sampleBridge 6000 8000
    (by decide) (by decide) (by decide)
  exact ⟨by decide, by decide, h.1, h.2.1, h.2.2.1, h.2.2.2.1, h.2.2.2.2⟩

/-- Claim C7: Close unconditionally moves the bridge to Disconnected and
invalidates the snapshot while leaving the payload fields, the timestamp, the
last-attempt timestamp and the cached string untouched, and is idempotent. -/
theorem Close_spec (s : Bridge) :
    (Close s).1.connected = false ∧
    (Close s).1.snapshot_valid = false ∧
    (Close s).1.snapshot = s.snapshot ∧
    (Close s).1.snapshot_ts_ms = s.snapshot_ts_ms ∧
    (Close s).1.snapshot_json = s.snapshot_json ∧
    (Close s).1.last_connect_attempt_ms = s.last_connect_attempt_ms ∧
    (Close (Close s).1).1 = (Close s).1 := by
  simp [Close]

/-- Claim C8: SnapshotAgeMs is 0 whenever no snapshot is valid; with a valid
snapshot it is now minus the snapshot timestamp (the guarded uint64
subtraction never wraps), and it is clamped to 0 when the timestamp exceeds
the current time. -/
theorem SnapshotAgeMs_spec (now : Nat) (s : Bridge) (hnow : now < 2 ^ 64) :
    (s.snapshot_valid = false → SnapshotAgeMs now s = 0) ∧
    (s.snapshot_valid = true → s.snapshot_ts_ms ≤ now →
      SnapshotAgeMs now s = now - s.snapshot_ts_ms) ∧
    (s.snapshot_valid = true → now < s.snapshot_ts_ms →
      SnapshotAgeMs now s = 0) := by
  refine ⟨?_, ?_, ?_⟩
  · intro hv
    simp [SnapshotAgeMs, hv]
  · intro hv hle
    simp only [SnapshotAgeMs, hv, Bool.not_true, Bool.false_eq_true,
               if_false, hle, if_true]
    unfold sub64
    rw [two_pow_64]
    rw [two_pow_64] at hnow
    omega
  · intro hv hgt
    simp [SnapshotAgeMs, hv, Nat.not_le.mpr hgt]

theorem SnapshotAgeMs_spec_witness :
    (6000 : Nat) < 2 ^ 64 ∧
    initialBridge.snapshot_valid = false ∧
    SnapshotAgeMs 6000 initialBridge = 0 ∧
    sampleBridge.snapshot_valid = true ∧
    sampleBridge.snapshot_ts_ms ≤ 6000 ∧
    SnapshotAgeMs 6000 sampleBridge = 6000 - sampleBridge.snapshot_ts_ms ∧
    SnapshotAgeMs 4000 sampleBridge = 0 := by
  have h1 := SnapshotAgeMs_spec 6000 initialBridge (by decide)
  have h2 := SnapshotAgeMs_spec 6000 sampleBridge (by decide)
  have h3 := SnapshotAgeMs_spec 4000 sampleBridge (by decide)
  exact ⟨by decide, by decide, h1.1 (by decide), by decide, by decide,
         h2.2.1 (by decide) (by decide), h3.2.2 (by decide) (by decide)⟩

/-- Claim C9: the last-attempt timestamp moves only on a real open attempt:
EnsureConnected returning early (already connected, or cooldown active)
leaves the whole state unchanged, and past the cooldown it stamps the current
time and actually opens. -/
theorem EnsureConnected_attempt_spec (now : Nat) (b : Bool) (s : Bridge) :
    (s.connected = true → EnsureConnected now b s = (true, s, [])) ∧
    (s.connected = false → sub64 now s.last_connect_attempt_ms < 2000 →
      EnsureConnected now b s = (false, s, [])) ∧
    (s.connected = false → 2000 ≤ sub64 now s.last_connect_attempt_ms →
      (EnsureConnected now b s).2.1.last_connect_attempt_ms = now ∧
      HostCall.openConn ∈ (EnsureConnected now b s).2.2) := by
  refine ⟨EnsureConnected_of_connected now b s,
          EnsureConnected_of_cooldown now b s, ?_⟩
  intro h1 h2
  have h2x : ¬ sub64 now s.last_connect_attempt_ms < 2000 := by omega
  cases b with
  | true =>
      rw [EnsureConnected_open_ok now s h1 h2x]
      exact ⟨rfl, by simp [ConnectCalls]⟩
  | false =>
      rw [EnsureConnected_open_fail now s h1 h2x]
      exact ⟨rfl, by simp⟩

theorem EnsureConnected_attempt_spec_witness :
    connBridge.connected = true ∧
    EnsureConnected 100 true connBridge = (true, connBridge, []) ∧
    initialBridge.connected = false ∧
    sub64 500 initialBridge.last_connect_attempt_ms < 2000 ∧
    EnsureConnected 500 true initialBridge = (false, initialBridge, []) ∧
    2000 ≤ sub64 5000 initialBridge.last_connect_attempt_ms ∧
    (EnsureConnected 5000 false initialBridge).2.1.last_connect_attempt_ms
      = 5000 ∧
    HostCall.openConn ∈ (EnsureConnected 5000 false initialBridge).2.2 := by
  have h1 := (EnsureConnected_attempt_spec 100 true connBridge).1 rfl
  have h2 := (EnsureConnected_attempt_spec 500 true initialBridge).2.1
    (by decide) (by decide)
  have h3 := (EnsureConnected_attempt_spec 5000 false initialBridge).2.2
    (by decide) (by decide)
  exact ⟨rfl, h1, by decide, by decide, h2, by decide, h3.1, h3.2⟩

/-- Claim C10: a tick in which EnsureConnected leaves the bridge disconnected
pumps no events — its result is exactly the EnsureConnected result — so the
telemetry cache, the valid flag, and the serialized snapshot are untouched. -/
theorem Tick_disconnected_spec (now : Nat) (b : Bool) (evs : List RecvEvent)
    (s : Bridge)
    (h : (EnsureConnected now b s).2.1.connected = false) :
    Tick now b evs s =
      ((EnsureConnected now b s).2.1, (EnsureConnected now b s).2.2) ∧
    (Tick now b evs s).1.snapshot = s.snapshot ∧
    (Tick now b evs s).1.snapshot_valid = s.snapshot_valid ∧
    (Tick now b evs s).1.snapshot_json = s.snapshot_json := by
  have hc := EnsureConnected_cache now b s
  have ht : Tick now b evs s =
      ((EnsureConnected now b s).2.1, (EnsureConnected now b s).2.2) := by
    simp [Tick, h]
  rw [ht]
  exact ⟨rfl, hc.1, hc.2.1, hc.2.2.2⟩

theorem Tick_disconnected_spec_witness :
    (EnsureConnected 500 true initialBridge).2.1.connected = false ∧
    Tick 500 true [RecvEvent.simObjectData 1 samplePayload] initialBridge =
      ((EnsureConnected 500 true initialBridge).2.1,
       (EnsureConnected 500 true initialBridge).2.2) ∧
    (Tick 500 true [RecvEvent.simObjectData 1 samplePayload]
        initialBridge).1.snapshot_valid = false := by
  have h := Tick_disconnected_spec 500 true
    [RecvEvent.simObjectData 1 samplePayload] initialBridge (by decide)
  exact ⟨by decide, h.1, by decide⟩

end osb
